import Mathlib

/-
Shallow embedding of PFERD's concurrency-coordination core:

* src/PFERD/http_crawler.py — class HttpCrawler: the authentication-ticket
  coordinator (`_authentication_id`, `_authentication_lock`,
  `prepare_request`, `authenticate`, `_save_cookies`, `run`).
* src/PFERD/conductor.py — classes TerminalConductor and ProgressBar: the
  terminal-output coordinator.

Concurrency model: the program runs under asyncio's single-threaded
cooperative scheduler.  Every statement of the bodies modelled here executes
between two suspension points while holding the relevant asyncio.Lock
(`_authentication_lock` for `prepare_request`/`authenticate`, `_lock` for
`start`/`stop`/`exclusive_output`), so any interleaving of N calls is
observationally equal to running the N lock-protected bodies one after the
other in lock-acquisition order.  We therefore embed each method as a pure
state-transformer on an explicit state record, and model "N concurrent
calls" as sequential composition of the transformers; a raised exception is
an `Option`-valued second component (`some e` = the call raised `e`,
`none` = the call returned normally).

External collaborators (the subclass hook `_authenticate`, the cookie jar's
`save`/`load`, the crawl body `super().run()`) are parameters of type
`Except E Unit`: `.ok ()` means the external operation returned normally,
`.error e` that it raised `e`.
-/

/-- State of one `HttpCrawler` instance (src/PFERD/http_crawler.py).

* `authenticationId` embeds `self._authentication_id` (the ticket).
* `currentCookieJar` embeds `self._current_cookie_jar` (`none` = Python
  `None`; `some cs` = an `aiohttp.CookieJar` holding the cookies `cs`).
* `authCalls` counts the invocations of the external authentication
  operation `self._authenticate()` (instrumentation of the call site).
* `saveAttempts` counts the invocations of `self._current_cookie_jar.save`
  (instrumentation of the call site in `_save_cookies`).
* `warnings` counts `log.warn` emissions (instrumentation). -/
structure CrawlerState where
  authenticationId : Nat
  currentCookieJar : Option (List String)
  authCalls : Nat
  saveAttempts : Nat
  warnings : Nat
  deriving Repr, DecidableEq

/-- State produced by `HttpCrawler.__init__`: `self._authentication_id = 0`,
`self._current_cookie_jar = None` (http_crawler.py lines 27-29). -/
def initialCrawlerState : CrawlerState :=
  { authenticationId := 0
    currentCookieJar := none
    authCalls := 0
    saveAttempts := 0
    warnings := 0 }

/-- Python truthiness of `self._current_cookie_jar`: `aiohttp.CookieJar` is
`Sized`, so `not jar` is true when the jar is `None` or empty. -/
def cookieJarFalsy : Option (List String) → Bool
  | none => true
  | some cs => cs.isEmpty

/-- Embedding of `HttpCrawler._save_cookies` (http_crawler.py lines 59-69).
`saveRes` is the behaviour of the external `jar.save(path)` call.  The
method absorbs every exception of `save` (the `try`/`except` logs a warning
and returns normally), hence the return type is a plain `CrawlerState`:
this function cannot raise.  When the jar is falsy (`None` or empty) the
save is aborted before calling `save`. -/
def HttpCrawler.save_cookies {E : Type} (saveRes : Except E Unit)
    (s : CrawlerState) : CrawlerState :=
  if cookieJarFalsy s.currentCookieJar then
    s
  else
    match saveRes with
    | .ok _ => { s with saveAttempts := s.saveAttempts + 1 }
    | .error _ =>
        { s with saveAttempts := s.saveAttempts + 1, warnings := s.warnings + 1 }

/-- Embedding of `HttpCrawler.prepare_request` (http_crawler.py lines
31-36): under `_authentication_lock`, read and return
`self._authentication_id`.  The body performs no mutation, so the state
component of the result is the input state. -/
def HttpCrawler.prepare_request (s : CrawlerState) : Nat × CrawlerState :=
  (s.authenticationId, s)

/-- Embedding of `HttpCrawler.authenticate` (http_crawler.py lines 38-50).
Under `_authentication_lock`:
`if current_id != self._authentication_id: return` (fast path, no external
call); otherwise `await self._authenticate()` (behaviour `auth`; if it
raises, the exception propagates and nothing after it runs), then
`self._authentication_id += 1`, then `await self._save_cookies()`
(behaviour of the inner `jar.save` is `saveRes`; `_save_cookies` never
raises). -/
def HttpCrawler.authenticate {E : Type} (auth saveRes : Except E Unit)
    (currentId : Nat) (s : CrawlerState) : CrawlerState × Option E :=
  if currentId ≠ s.authenticationId then
    (s, none)
  else
    match auth with
    | .error e => ({ s with authCalls := s.authCalls + 1 }, some e)
    | .ok _ =>
        (HttpCrawler.save_cookies saveRes
          { s with
              authCalls := s.authCalls + 1
              authenticationId := s.authenticationId + 1 }, none)

/-- Embedding of `HttpCrawler.run` (http_crawler.py lines 71-91).
`self._current_cookie_jar = aiohttp.CookieJar()` creates an empty jar;
`jar.load(path)` (behaviour `loadRes`) fills it with the persisted cookies
or raises, and the surrounding `try`/`except Exception: pass` absorbs the
failure, leaving the fresh jar empty.  Then the crawl body
`await super().run()` (behaviour `crawl`) runs; if it raises, the exception
propagates and the final `await self._save_cookies()` after the session
block is not reached.  On normal completion `_save_cookies` runs once more
with `jar.save` behaviour `saveRes`. -/
def HttpCrawler.run {E : Type} (loadRes : Except E (List String))
    (crawl : Except E Unit) (saveRes : Except E Unit)
    (s : CrawlerState) : CrawlerState × Option E :=
  let jar : List String :=
    match loadRes with
    | .ok cs => cs
    | .error _ => []
  let s1 := { s with currentCookieJar := some jar }
  match crawl with
  | .error e => (s1, some e)
  | .ok _ => (HttpCrawler.save_cookies saveRes s1, none)

/-- Sequential composition of `authenticate` calls: the coordinator's lock
serializes the bodies, so any interleaving of the calls `tickets[i]`
behaves as this fold in lock-acquisition order.  The second component
collects each call's outcome (`none` = returned normally). -/
def runAuthenticate {E : Type} (auth saveRes : Except E Unit) :
    List Nat → CrawlerState → CrawlerState × List (Option E)
  | [], s => (s, [])
  | t :: ts, s =>
      let step := HttpCrawler.authenticate auth saveRes t s
      let rest := runAuthenticate auth saveRes ts step.1
      (rest.1, step.2 :: rest.2)

/-- Sequential composition of `n` `prepare_request` calls, collecting the
returned ticket values. -/
def runPrepare : Nat → CrawlerState → List Nat × CrawlerState
  | 0, s => ([], s)
  | n + 1, s =>
      let step := HttpCrawler.prepare_request s
      let rest := runPrepare n step.2
      (step.1 :: rest.1, rest.2)

/-- `_save_cookies` never touches the ticket or the authentication-call
counter. -/
theorem save_cookies_frame {E : Type} (saveRes : Except E Unit)
    (s : CrawlerState) :
    (HttpCrawler.save_cookies saveRes s).authenticationId = s.authenticationId ∧
      (HttpCrawler.save_cookies saveRes s).authCalls = s.authCalls := by
  unfold HttpCrawler.save_cookies
  cases saveRes <;> cases h : cookieJarFalsy s.currentCookieJar <;> simp [h]

/-- A batch of `authenticate` calls whose observed ticket differs from the
current ticket is a no-op: no state change and every call returns
normally. -/
theorem runAuthenticate_stale {E : Type} (auth saveRes : Except E Unit)
    (t : Nat) (n : Nat) (s : CrawlerState) (h : t ≠ s.authenticationId) :
    runAuthenticate auth saveRes (List.replicate n t) s
      = (s, List.replicate n (none : Option E)) := by
  induction n with
  | zero => simp [runAuthenticate]
  | succ m ih =>
      simp [List.replicate_succ, runAuthenticate, HttpCrawler.authenticate, h, ih]

/-- `authenticate` called with the up-to-date ticket: the external
authentication runs; on failure the state only records the attempt, on
success the ticket is incremented and the cookies saved. -/
theorem authenticate_hit {E : Type} (auth saveRes : Except E Unit)
    (s : CrawlerState) :
    HttpCrawler.authenticate auth saveRes s.authenticationId s
      = match auth with
        | .error e => ({ s with authCalls := s.authCalls + 1 }, some e)
        | .ok _ =>
            (HttpCrawler.save_cookies saveRes
              { s with
                  authCalls := s.authCalls + 1
                  authenticationId := s.authenticationId + 1 }, none) := by
  simp [HttpCrawler.authenticate]

/-- A refresh storm: `m + 1` serialized `authenticate` calls, all carrying
the ticket that was current when the first acquires the lock, perform the
single successful external authentication of the head call; every later
call takes the fast path. -/
theorem runAuthenticate_storm {E : Type} (saveRes : Except E Unit)
    (m : Nat) (s : CrawlerState) :
    runAuthenticate (Except.ok ()) saveRes
        (List.replicate (m + 1) s.authenticationId) s
      = (HttpCrawler.save_cookies saveRes
          { s with
              authCalls := s.authCalls + 1
              authenticationId := s.authenticationId + 1 },
         List.replicate (m + 1) (none : Option E)) := by
  have hstep : HttpCrawler.authenticate (Except.ok ()) saveRes
      s.authenticationId s
      = (HttpCrawler.save_cookies saveRes
          { s with
              authCalls := s.authCalls + 1
              authenticationId := s.authenticationId + 1 }, none) := by
    simpa using authenticate_hit (Except.ok ()) saveRes s
  have h1 : (HttpCrawler.save_cookies saveRes
      { s with
          authCalls := s.authCalls + 1
          authenticationId := s.authenticationId + 1 }).authenticationId
      = s.authenticationId + 1 :=
    (save_cookies_frame saveRes
      { s with
          authCalls := s.authCalls + 1
          authenticationId := s.authenticationId + 1 }).1
  have hne : s.authenticationId
      ≠ (HttpCrawler.save_cookies saveRes
          { s with
              authCalls := s.authCalls + 1
              authenticationId := s.authenticationId + 1 }).authenticationId := by
    rw [h1]; omega
  rw [List.replicate_succ]
  simp only [runAuthenticate, hstep,
    runAuthenticate_stale (Except.ok ()) saveRes s.authenticationId m _ hne]
  simp [List.replicate_succ]

/-- C1: For every sequence of interleaved `refresh(observedTicket)` calls,
a call with `observedTicket` different from the current ticket at gate
acquisition performs no authentication and leaves the state unchanged; N
serialized calls with the same stale value `t` equal to the ticket at call
time execute the external authentication exactly once (`authCalls` grows
by exactly 1), increase the ticket by exactly 1, and all return without
raising; a later refresh with the old ticket performs no authentication
and no state change. -/
theorem refresh_collapses_to_one_authentication {E : Type}
    (saveRes : Except E Unit) (t n : Nat) (s : CrawlerState)
    (ht : s.authenticationId = t) (hn : 0 < n) :
    (∀ (auth : Except E Unit) (obs : Nat) (s2 : CrawlerState),
        obs ≠ s2.authenticationId →
          HttpCrawler.authenticate auth saveRes obs s2 = (s2, none)) ∧
      (runAuthenticate (Except.ok ()) saveRes (List.replicate n t) s).1.authCalls
          = s.authCalls + 1 ∧
      (runAuthenticate (Except.ok ()) saveRes (List.replicate n t) s).1.authenticationId
          = t + 1 ∧
      (runAuthenticate (Except.ok ()) saveRes (List.replicate n t) s).2
          = List.replicate n (none : Option E) ∧
      HttpCrawler.authenticate (Except.ok ()) saveRes t
          (runAuthenticate (Except.ok ()) saveRes (List.replicate n t) s).1
        = ((runAuthenticate (Except.ok ()) saveRes (List.replicate n t) s).1,
            none) := by
  subst ht
  obtain ⟨m, rfl⟩ : ∃ m, n = m + 1 :=
    ⟨n - 1, (Nat.succ_pred_eq_of_pos hn).symm⟩
  have hframe := save_cookies_frame saveRes
      { s with
          authCalls := s.authCalls + 1
          authenticationId := s.authenticationId + 1 }
  have hid : (HttpCrawler.save_cookies saveRes
      { s with
          authCalls := s.authCalls + 1
          authenticationId := s.authenticationId + 1 }).authenticationId
      = s.authenticationId + 1 := hframe.1
  have hcalls : (HttpCrawler.save_cookies saveRes
      { s with
          authCalls := s.authCalls + 1
          authenticationId := s.authenticationId + 1 }).authCalls
      = s.authCalls + 1 := hframe.2
  refine ⟨fun auth obs s2 hne => by simp [HttpCrawler.authenticate, hne],
    ?_, ?_, ?_, ?_⟩
  · rw [runAuthenticate_storm saveRes m s]; exact hcalls
  · rw [runAuthenticate_storm saveRes m s]; exact hid
  · rw [runAuthenticate_storm saveRes m s]
  · rw [runAuthenticate_storm saveRes m s]
    have hne : s.authenticationId
        ≠ (HttpCrawler.save_cookies saveRes
            { s with
                authCalls := s.authCalls + 1
                authenticationId := s.authenticationId + 1 }).authenticationId := by
      rw [hid]; omega
    simp [HttpCrawler.authenticate, hne]

/-- Witness for C1 at a concrete input: the coordinator starts at ticket 0
and two tasks refresh with observed ticket 0; the final ticket is 1 and the
external authentication ran exactly once. -/
theorem refresh_collapses_to_one_authentication_witness :
    initialCrawlerState.authenticationId = 0 ∧ 0 < 2 ∧
      (runAuthenticate (Except.ok ()) (Except.ok () : Except Unit Unit)
          (List.replicate 2 0) initialCrawlerState).1.authCalls = 0 + 1 ∧
      (runAuthenticate (Except.ok ()) (Except.ok () : Except Unit Unit)
          (List.replicate 2 0) initialCrawlerState).1.authenticationId = 0 + 1 :=
  ⟨rfl, by decide,
    (refresh_collapses_to_one_authentication (Except.ok ()) 0 2
        initialCrawlerState rfl (by decide)).2.1,
    (refresh_collapses_to_one_authentication (Except.ok ()) 0 2
        initialCrawlerState rfl (by decide)).2.2.1⟩

/-- C2: when the external authentication operation raises, `authenticate`
leaves the ticket unchanged, performs no cookie save, and propagates the
error unmodified to its caller. -/
theorem refresh_error_leaves_ticket_unchanged {E : Type} (e : E)
    (saveRes : Except E Unit) (obs : Nat) (s : CrawlerState)
    (h : obs = s.authenticationId) :
    (HttpCrawler.authenticate (Except.error e) saveRes obs s).1.authenticationId
        = s.authenticationId ∧
      (HttpCrawler.authenticate (Except.error e) saveRes obs s).1.saveAttempts
        = s.saveAttempts ∧
      (HttpCrawler.authenticate (Except.error e) saveRes obs s).2 = some e := by
  subst h
  simp [HttpCrawler.authenticate]

/-- Witness for C2 at a concrete input: from the initial state, a refresh
with observed ticket 0 whose external authentication raises leaves the
ticket at 0, saves nothing, and surfaces the error. -/
theorem refresh_error_leaves_ticket_unchanged_witness :
    (0 = initialCrawlerState.authenticationId) ∧
      (HttpCrawler.authenticate (Except.error "fatal auth error")
          (Except.ok ()) 0 initialCrawlerState).1.authenticationId
        = initialCrawlerState.authenticationId ∧
      (HttpCrawler.authenticate (Except.error "fatal auth error")
          (Except.ok ()) 0 initialCrawlerState).2 = some "fatal auth error" :=
  ⟨rfl,
    (refresh_error_leaves_ticket_unchanged "fatal auth error"
        (Except.ok ()) 0 initialCrawlerState rfl).1,
    (refresh_error_leaves_ticket_unchanged "fatal auth error"
        (Except.ok ()) 0 initialCrawlerState rfl).2.2⟩

/-- C9: `prepare_request` (the `currentTicket()` operation) returns the
current ticket and has no side effect on any coordinator state; the ticket
starts at 0, and any number of `prepare_request` calls made before any
refresh has completed all observe the initial value 0. -/
theorem current_ticket_no_side_effects :
    (∀ s : CrawlerState,
        HttpCrawler.prepare_request s = (s.authenticationId, s)) ∧
      initialCrawlerState.authenticationId = 0 ∧
      ∀ n : Nat, runPrepare n initialCrawlerState
        = (List.replicate n 0, initialCrawlerState) := by
  refine ⟨fun s => rfl, rfl, ?_⟩
  intro n
  induction n with
  | zero => rfl
  | succ m ih =>
      have h0 : initialCrawlerState.authenticationId = 0 := rfl
      simp [runPrepare, HttpCrawler.prepare_request, ih, List.replicate_succ, h0]

/-- `_save_cookies` never replaces the cookie jar itself. -/
theorem save_cookies_jar {E : Type} (saveRes : Except E Unit)
    (s : CrawlerState) :
    (HttpCrawler.save_cookies saveRes s).currentCookieJar
      = s.currentCookieJar := by
  unfold HttpCrawler.save_cookies
  cases saveRes <;> cases h : cookieJarFalsy s.currentCookieJar <;> simp [h]

/-- C8: cookie persistence failures are never fatal.  (a) A failing cookie
load at session start is absorbed: the session starts with an empty jar and
`run` does not raise the load error.  (b) A failing cookie save is absorbed
by `_save_cookies`, which records one attempt, logs one warning, and
returns normally (its return type carries no exception).  (c) `_save_cookies`
runs after every successful authentication, and (d) once more at session
end. -/
theorem cookie_persistence_nonfatal {E : Type} (e : E)
    (saveRes : Except E Unit) :
    (∀ s : CrawlerState,
        (HttpCrawler.run (Except.error e) (Except.ok ()) saveRes s).1.currentCookieJar
            = some [] ∧
          (HttpCrawler.run (Except.error e) (Except.ok ()) saveRes s).2 = none) ∧
      (∀ (s : CrawlerState) (c : String) (cs : List String),
          s.currentCookieJar = some (c :: cs) →
            HttpCrawler.save_cookies (Except.error e) s
              = { s with
                    saveAttempts := s.saveAttempts + 1
                    warnings := s.warnings + 1 }) ∧
      (∀ s : CrawlerState,
          HttpCrawler.authenticate (Except.ok ()) saveRes s.authenticationId s
            = (HttpCrawler.save_cookies saveRes
                { s with
                    authCalls := s.authCalls + 1
                    authenticationId := s.authenticationId + 1 }, none)) ∧
      (∀ (cs : List String) (s : CrawlerState),
          HttpCrawler.run (Except.ok cs) (Except.ok ()) saveRes s
            = (HttpCrawler.save_cookies saveRes
                { s with currentCookieJar := some cs }, none)) := by
  refine ⟨fun s => ⟨?_, ?_⟩, fun s c cs h => ?_, fun s => ?_, fun cs s => ?_⟩
  · rw [HttpCrawler.run, save_cookies_jar]
  · rw [HttpCrawler.run]
  · rw [HttpCrawler.save_cookies, h]
    simp [cookieJarFalsy]
  · simpa using authenticate_hit (Except.ok ()) saveRes s
  · rw [HttpCrawler.run]

/-- Witness for C8 at concrete inputs: a save of the jar `["k"]` that
raises "disk full" is absorbed (one attempt, one warning, normal return),
and a run whose load raises starts with an empty jar. -/
theorem cookie_persistence_nonfatal_witness :
    ({ initialCrawlerState with
        currentCookieJar := some ["k"] } : CrawlerState).currentCookieJar
        = some ["k"] ∧
      HttpCrawler.save_cookies (Except.error "disk full")
          { initialCrawlerState with currentCookieJar := some ["k"] }
        = { initialCrawlerState with
              currentCookieJar := some ["k"]
              saveAttempts := 1
              warnings := 1 } ∧
      (HttpCrawler.run (Except.error "disk full") (Except.ok ())
          (Except.ok ()) initialCrawlerState).1.currentCookieJar = some [] :=
  ⟨rfl,
    (cookie_persistence_nonfatal "disk full" (Except.ok ())).2.1
      { initialCrawlerState with currentCookieJar := some ["k"] } "k" [] rfl,
    ((cookie_persistence_nonfatal "disk full" (Except.ok ())).1
      initialCrawlerState).1⟩

/-- One task of the rendering engine (rich.progress).  Modelled from the
spec: `rich` is an external collaborator (spec section 6, renderingEngine);
we embed it at its interface — `addTask(description, total|indeterminate,
start)`, `advance(taskId, amount)`, `removeTask(taskId)`, `start()`,
`stop()` — with a task record holding the fields the interface mentions. -/
structure ProgressTask where
  id : Nat
  description : String
  total : Option Rat
  taskStarted : Bool
  completed : Rat
  deriving Repr, DecidableEq

/-- Modelled from the spec: the state of the external rendering engine
(`rich.progress.Progress`): its set of active tasks (in creation order),
the next task id it will hand out, and whether live rendering is started. -/
structure Progress where
  tasks : List ProgressTask
  nextId : Nat
  started : Bool
  deriving Repr, DecidableEq

/-- Modelled from the spec: a freshly constructed rendering engine
(`Progress()` in `TerminalConductor.__init__`) has no tasks and is not
rendering. -/
def Progress.init : Progress :=
  { tasks := [], nextId := 0, started := false }

/-- Modelled from the spec: `Progress.add_task(description, ...)` creates a
new task with the next id, the given total (`none` = indeterminate), the
given started flag (`start=False` = not yet animating), and zero progress;
it returns the new task's id. -/
def Progress.add_task (p : Progress) (description : String)
    (total : Option Rat) (start : Bool) : Nat × Progress :=
  (p.nextId,
    { p with
        tasks := p.tasks ++
          [{ id := p.nextId
             description := description
             total := total
             taskStarted := start
             completed := 0 }]
        nextId := p.nextId + 1 })

/-- Modelled from the spec: `Progress.remove_task(taskid)` removes the
task from the active set. -/
def Progress.remove_task (p : Progress) (taskid : Nat) : Progress :=
  { p with tasks := p.tasks.filter (fun t => t.id != taskid) }

/-- Modelled from the spec: `Progress.advance(taskid, amount)` increases
the progress of the task with that id. -/
def Progress.advance (p : Progress) (taskid : Nat) (amount : Rat) :
    Progress :=
  { p with
      tasks := p.tasks.map (fun t =>
        if t.id = taskid then { t with completed := t.completed + amount }
        else t) }

/-- Modelled from the spec: `Progress.start()` starts live rendering. -/
def Progress.start (p : Progress) : Progress :=
  { p with started := true }

/-- Modelled from the spec: `Progress.stop()` stops live rendering. -/
def Progress.stop (p : Progress) : Progress :=
  { p with started := false }

/-- State of one `TerminalConductor` instance (src/PFERD/conductor.py,
lines 18-23) together with the terminal it writes to:

* `stopped` embeds `self._stopped`;
* `progress` embeds `self._progress` (the external rendering engine);
* `lines` embeds `self._lines` (the buffer of paused output);
* `terminal` records, in order, the lines emitted by `rich.print`
  (instrumentation of the external write primitive). -/
structure ConductorState where
  stopped : Bool
  progress : Progress
  lines : List String
  terminal : List String
  deriving Repr, DecidableEq

/-- State produced by `TerminalConductor.__init__` (conductor.py lines
19-23): `self._stopped = False`, a fresh `Progress()`, and an empty line
buffer.  (The `asyncio.Lock` is represented by the sequentialization of the
transformers, see the header comment.) -/
def TerminalConductor.init : ConductorState :=
  { stopped := false
    progress := Progress.init
    lines := []
    terminal := [] }

/-- Embedding of `TerminalConductor._start` (conductor.py lines 25-30), the
body the public `async start()` runs under `self._lock`: `rich.print` each
buffered line in order, clear the buffer, then `self._progress.start()`.
Note the source does not assign `self._stopped` here. -/
def TerminalConductor.start (c : ConductorState) : ConductorState :=
  { c with
      terminal := c.terminal ++ c.lines
      lines := []
      progress := Progress.start c.progress }

/-- Embedding of `TerminalConductor._stop` (conductor.py lines 32-34), the
body the public `async stop()` runs under `self._lock`:
`self._progress.stop()` then `self._stopped = True`. -/
def TerminalConductor.stop (c : ConductorState) : ConductorState :=
  { c with
      progress := Progress.stop c.progress
      stopped := true }

/-- Embedding of `TerminalConductor.print` (conductor.py lines 44-48): if
`self._stopped`, append the line to `self._lines`; else `rich.print` it. -/
def TerminalConductor.print (c : ConductorState) (line : String) :
    ConductorState :=
  if c.stopped then
    { c with lines := c.lines ++ [line] }
  else
    { c with terminal := c.terminal ++ [line] }

/-- Embedding of `TerminalConductor.exclusive_output` (conductor.py lines
50-57).  Inside `async with self._lock` the source evaluates `self.stop()`,
runs the protected logic, and in the `finally` clause evaluates
`self.start()`.  But `stop` and `start` are `async def` methods and the
source does NOT await them: each call merely builds a coroutine object that
is dropped, so neither body ever executes and the conductor state is not
changed by entry or exit.  (Awaiting them would deadlock anyway, since
`self._lock` is already held and asyncio locks are not reentrant.)  The
scope therefore just runs the body under the lock.  `body` returns the new
state and `none`, or the state at the raise point and `some e`. -/
def TerminalConductor.exclusive_output {E : Type}
    (body : ConductorState → ConductorState × Option E)
    (c : ConductorState) : ConductorState × Option E :=
  body c

/-- Embedding of `TerminalConductor.progress_bar` (conductor.py lines
59-75): with `total` absent, `add_task(description, start=False)` (an
indeterminate, not-started task); with `total` present,
`add_task(description, total=total)` (rich's default `start=True`).  The
body runs with the handle; the `finally` clause removes the task on every
exit path. -/
def TerminalConductor.progress_bar {E : Type} (description : String)
    (total : Option Rat)
    (body : Nat → ConductorState → ConductorState × Option E)
    (c : ConductorState) : ConductorState × Option E :=
  let added :=
    match total with
    | none => Progress.add_task c.progress description none false
    | some t => Progress.add_task c.progress description (some t) true
  let c1 := { c with progress := added.2 }
  let res := body added.1 c1
  ({ res.1 with progress := Progress.remove_task res.1.progress added.1 },
    res.2)

/-- Embedding of `ProgressBar.advance` (conductor.py lines 14-15): the
handle forwards to `self._progress.advance(self._taskid, amount)`. -/
def ProgressBar.advance (taskid : Nat) (amount : Rat)
    (c : ConductorState) : ConductorState :=
  { c with progress := Progress.advance c.progress taskid amount }

/-- The primitive conductor operations a task can invoke (the bodies that
run under `self._lock`, src/PFERD/conductor.py). -/
inductive ConductorOp where
  | start : ConductorOp
  | stop : ConductorOp
  | print : String → ConductorOp
  deriving Repr, DecidableEq

/-- Run one conductor operation. -/
def execOp (c : ConductorState) : ConductorOp → ConductorState
  | .start => TerminalConductor.start c
  | .stop => TerminalConductor.stop c
  | .print line => TerminalConductor.print c line

/-- Removing a task id from a task list leaves no task with that id. -/
theorem filter_eq_id_after_remove (l : List ProgressTask) (k : Nat) :
    ((l.filter (fun t => t.id != k)).filter (fun t => t.id == k)) = [] := by
  induction l with
  | nil => rfl
  | cons a l ih =>
      by_cases h : a.id = k <;> simp [List.filter_cons, h, ih]

/-- C3 (actual code behaviour at the failing input): `exclusive_output`
never pauses or resumes rendering, because the `self.stop()` and
`self.start()` calls inside it build coroutines that are never awaited.
Starting from a live conductor, a body that prints "x" inside the scope
writes "x" to the terminal immediately: afterwards `stopped` is still
`false`, the renderer is still live, the buffer was never used, and the
scope returned normally — contradicting the specified stop-before /
resume-after-with-replay behaviour. -/
theorem exclusive_output_never_pauses :
    (TerminalConductor.exclusive_output
        (fun c => (TerminalConductor.print c "x", (none : Option Unit)))
        (TerminalConductor.start TerminalConductor.init)).1.stopped = false ∧
      (TerminalConductor.exclusive_output
          (fun c => (TerminalConductor.print c "x", (none : Option Unit)))
          (TerminalConductor.start TerminalConductor.init)).1.progress.started
        = true ∧
      (TerminalConductor.exclusive_output
          (fun c => (TerminalConductor.print c "x", (none : Option Unit)))
          (TerminalConductor.start TerminalConductor.init)).1.lines = [] ∧
      (TerminalConductor.exclusive_output
          (fun c => (TerminalConductor.print c "x", (none : Option Unit)))
          (TerminalConductor.start TerminalConductor.init)).1.terminal
        = ["x"] ∧
      (TerminalConductor.exclusive_output
          (fun c => (TerminalConductor.print c "x", (none : Option Unit)))
          (TerminalConductor.start TerminalConductor.init)).2 = none :=
  ⟨rfl, rfl, rfl, rfl, rfl⟩

/-- C4 counterexample: a freshly constructed conductor has
`stopped = false`, so the first line printed before any `start()` call is
written to the terminal immediately and the buffer stays empty — the claim
that the initial state buffers every printed line is false. -/
theorem conductor_initially_paused_counterexample :
    TerminalConductor.init.stopped = false ∧
      (TerminalConductor.print TerminalConductor.init "a").lines = [] ∧
      (TerminalConductor.print TerminalConductor.init "a").terminal = ["a"] :=
  ⟨rfl, rfl, rfl⟩

/-- C4 (amended): a freshly constructed TerminalConductor has
`stopped = false`, so a line printed before the first `stop()` is written
to the terminal immediately and the buffer stays empty; `start()` flushes
the buffered lines to the terminal in FIFO order, clears the buffer and
starts the progress renderer, without changing the `stopped` flag; after a
`stop()`, printing "a" then "b" and then calling `start()` writes "a" then
"b" in that order and clears the buffer. -/
theorem conductor_initially_live :
    TerminalConductor.init.stopped = false ∧
      (∀ line : String,
          TerminalConductor.print TerminalConductor.init line
            = { TerminalConductor.init with terminal := [line] }) ∧
      (∀ c : ConductorState,
          TerminalConductor.start c
            = { c with
                  terminal := c.terminal ++ c.lines
                  lines := []
                  progress := Progress.start c.progress }) ∧
      (TerminalConductor.start (TerminalConductor.print (TerminalConductor.print
          (TerminalConductor.stop TerminalConductor.init) "a") "b")).terminal
        = ["a", "b"] ∧
      (TerminalConductor.start (TerminalConductor.print (TerminalConductor.print
          (TerminalConductor.stop TerminalConductor.init) "a") "b")).lines
        = [] :=
  ⟨rfl, fun _line => rfl, fun _c => rfl, rfl, rfl⟩

/-- C5 (actual code behaviour at the failing input): `_start` never resets
`self._stopped`, so after `stop()` followed by `start()` the conductor
still has `stopped = true` and a subsequent `print("x")` appends "x" to the
buffer and writes nothing to the terminal — contradicting the specified
PAUSED→LIVE transition under which the print would write immediately. -/
theorem print_buffers_after_stop_start :
    (TerminalConductor.start (TerminalConductor.stop
        TerminalConductor.init)).stopped = true ∧
      (TerminalConductor.print (TerminalConductor.start (TerminalConductor.stop
          TerminalConductor.init)) "x").lines = ["x"] ∧
      (TerminalConductor.print (TerminalConductor.start (TerminalConductor.stop
          TerminalConductor.init)) "x").terminal
        = (TerminalConductor.start (TerminalConductor.stop
            TerminalConductor.init)).terminal :=
  ⟨rfl, rfl, rfl⟩

/-- C6: on every exit from a `progress_bar` scope the task created at entry
(its id is the engine's `nextId` at entry) has been removed from the active
task set; this holds for an arbitrary body, and the scope passes a raising
body's error — or a normal body's return — through unchanged, so the
removal covers both exit modes. -/
theorem progress_bar_task_removed_on_exit {E : Type} (description : String)
    (total : Option Rat)
    (body : Nat → ConductorState → ConductorState × Option E)
    (c : ConductorState) :
    ((TerminalConductor.progress_bar description total body
        c).1.progress.tasks.filter (fun t => t.id == c.progress.nextId)) = [] ∧
      ∀ (e : E) (f : Nat → ConductorState → ConductorState),
        (TerminalConductor.progress_bar description total
            (fun k s => (f k s, some e)) c).2 = some e ∧
          (TerminalConductor.progress_bar description total
              (fun k s => (f k s, (none : Option E))) c).2
            = (none : Option E) := by
  constructor
  · cases total <;>
      simp [TerminalConductor.progress_bar, Progress.remove_task,
        Progress.add_task, filter_eq_id_after_remove]
  · intro e f
    cases total <;> simp [TerminalConductor.progress_bar]

/-- C7: with `total` omitted, `progress_bar` creates the task via
`add_task(description, start=False)` — indeterminate (`total = none`), not
started, zero progress — and entering then immediately leaving the scope
without calling `advance` returns normally and leaves the active task set
exactly as it was: no completed or partially-completed bar, no residual
entry. -/
theorem progress_bar_indeterminate_no_residual (description : String)
    (c : ConductorState)
    (hwf : ∀ t ∈ c.progress.tasks, t.id < c.progress.nextId) :
    ((Progress.add_task c.progress description none false).2.tasks.getLast?
        = some
            { id := c.progress.nextId
              description := description
              total := none
              taskStarted := false
              completed := 0 }) ∧
      (TerminalConductor.progress_bar description none
          (fun _k s => (s, (none : Option Unit))) c).2 = none ∧
      (TerminalConductor.progress_bar description none
          (fun _k s => (s, (none : Option Unit))) c).1.progress.tasks
        = c.progress.tasks := by
  refine ⟨?_, rfl, ?_⟩
  · simp [Progress.add_task]
  · simp only [TerminalConductor.progress_bar, Progress.remove_task,
      Progress.add_task]
    rw [List.filter_append]
    have h1 : (c.progress.tasks.filter
        (fun t => t.id != c.progress.nextId)) = c.progress.tasks := by
      rw [List.filter_eq_self]
      intro t ht
      have := hwf t ht
      simp only [bne_iff_ne, ne_eq]
      omega
    simp [h1]

/-- Witness for C7 at a concrete input: from a fresh conductor (whose task
set trivially satisfies the id bound), an indeterminate progress-bar scope
that is entered and left without `advance` leaves no task behind. -/
theorem progress_bar_indeterminate_no_residual_witness :
    (∀ t ∈ TerminalConductor.init.progress.tasks,
        t.id < TerminalConductor.init.progress.nextId) ∧
      (TerminalConductor.progress_bar "crawl" none
          (fun _k s => (s, (none : Option Unit)))
          TerminalConductor.init).1.progress.tasks = [] :=
  ⟨by simp [TerminalConductor.init, Progress.init],
    (progress_bar_indeterminate_no_residual "crawl" TerminalConductor.init
        (by simp [TerminalConductor.init, Progress.init])).2.2⟩

/-- A single conductor operation never resets a set `_stopped` flag. -/
theorem execOp_stopped_monotone (c : ConductorState) (op : ConductorOp)
    (h : c.stopped = true) : (execOp c op).stopped = true := by
  cases op <;>
    simp [execOp, TerminalConductor.start, TerminalConductor.stop,
      TerminalConductor.print, h]

/-- C10: the `_stopped` flag is monotone: once set, no sequence of
conductor operations (`start`, `stop`, `print` — in particular `start`,
which flushes and clears the buffer but does not touch the flag) ever
resets it, so after the first `stop()` every subsequent `print(line)`
appends the line to the buffer for the remaining lifetime of the
instance. -/
theorem stopped_flag_monotone (ops : List ConductorOp) (c : ConductorState)
    (h : c.stopped = true) :
    (ops.foldl execOp c).stopped = true ∧
      ∀ line : String,
        TerminalConductor.print (ops.foldl execOp c) line
          = { ops.foldl execOp c with
                lines := (ops.foldl execOp c).lines ++ [line] } := by
  have hfold : ∀ (l : List ConductorOp) (s : ConductorState),
      s.stopped = true → (l.foldl execOp s).stopped = true := by
    intro l
    induction l with
    | nil => intro s hs; exact hs
    | cons op l ih =>
        intro s hs
        exact ih (execOp s op) (execOp_stopped_monotone s op hs)
  refine ⟨hfold ops c h, fun line => ?_⟩
  rw [TerminalConductor.print, if_pos]
  exact (hfold ops c h)

/-- Witness for C10 at a concrete input: after the first `stop()`, even a
subsequent `start()` leaves the flag set, and a `print` then appends to
the buffer. -/
theorem stopped_flag_monotone_witness :
    (TerminalConductor.stop TerminalConductor.init).stopped = true ∧
      ([ConductorOp.start, ConductorOp.print "a"].foldl execOp
          (TerminalConductor.stop TerminalConductor.init)).stopped = true :=
  ⟨rfl,
    (stopped_flag_monotone [ConductorOp.start, ConductorOp.print "a"]
        (TerminalConductor.stop TerminalConductor.init) rfl).1⟩
